import Mathlib

/-!
Verification development for a personal to-do list service (Node.js + MySQL
+ Telegram bot, `src/index.js`, schema in `src/db.sql`).

The source is shallowly embedded: the MySQL tables become Lean lists of
records, each query helper of `index.js` becomes a pure function on that
state, and each HTTP route handler / bot command handler becomes a function
from state and parsed input to a new state and a response value.
Time (for token expiry) and the bcrypt salt source are passed explicitly.
-/

namespace Todo

/-! ## Password codec

Modelled from the spec: the repository calls the external `bcrypt` library
(`bcrypt.hash(password, 10)`, `bcrypt.compare(password, hash)`), whose code
is not part of this repository.  Following the spec's §4.1: `hash` computes
a salted one-way digest with cost factor 10, embedding a fresh random salt
per call (the salt is made an explicit argument here); `verify` compares the
plaintext against the stored digest and returns a boolean.  The one-way
core is modelled as an injective pairing of plaintext, salt and cost. -/

structure BDigest where
  cost : Nat
  salt : Nat
  key : String × Nat × Nat
  deriving DecidableEq, Repr

/-- Modelled from the spec: `bcrypt.hash(data, cost)`, which is library
code missing from this repository — a salted one-way digest of the
plaintext under an explicit fresh salt. -/
def bcryptHash (plaintext : String) (cost : Nat) (salt : Nat) : BDigest :=
  ⟨cost, salt, (plaintext, salt, cost)⟩

/-- Modelled from the spec: `bcrypt.compare(data, hash)`, which is library
code missing from this repository — re-derives the digest under the stored
salt and cost and compares. -/
def bcryptCompare (plaintext : String) (d : BDigest) : Bool :=
  d.key == (plaintext, d.salt, d.cost)

/-- `hashPassword(password)` = `bcrypt.hash(password, 10)`; the fresh salt
drawn by bcrypt for this call is the explicit `salt` argument. -/
def hashPassword (salt : Nat) (password : String) : BDigest :=
  bcryptHash password 10 salt

/-- `comparePasswords(password, hash)` = `bcrypt.compare(password, hash)`. -/
def comparePasswords (password : String) (h : BDigest) : Bool :=
  bcryptCompare password h

/-! ## Session tokens (`jsonwebtoken`)

`generateToken` signs `{ id: user.id, email: user.email }` with
`JWT_SECRET` and `expiresIn: '1h'` (3600 seconds); `verifyToken` checks the
signature and then the `exp` claim against the current time, throwing on a
bad signature, expiry (current time ≥ exp), or an unparseable token. -/

inductive Token where
  /-- a structurally valid JWT: payload `{id, email, exp}` signed with `sig`. -/
  | signed (id : Nat) (email : Option String) (exp : Nat) (sig : Nat)
  /-- a token string that does not parse as a JWT at all. -/
  | malformed
  deriving DecidableEq, Repr

inductive VerifyResult where
  | ok (id : Nat) (email : Option String)
  | expired
  | invalid
  | malformed
  deriving DecidableEq, Repr

/-- Modelled from the spec: `jwt.verify(token, JWT_SECRET)` — the
`jsonwebtoken` library code is missing from this repository; per the spec's
§4.2 it checks the signature first, then the `exp` claim (expired when the
clock has reached `exp`), and rejects unparseable tokens as malformed. -/
def verifyToken (secret now : Nat) : Token → VerifyResult
  | .malformed => .malformed
  | .signed id email exp sig =>
    if sig ≠ secret then .invalid
    else if exp ≤ now then .expired
    else .ok id email

/-- The JS error message carried by a failed `jwt.verify` (used by the
`/edit` and `/add` handlers, whose catch block echoes `error.message`). -/
def verifyErrorMessage : VerifyResult → String
  | .ok _ _ => ""
  | .expired => "jwt expired"
  | .invalid => "invalid signature"
  | .malformed => "jwt malformed"

/-! ## Data model (`src/db.sql`)

A row of `users` and a row of `items`.  Nullable columns are `Option`s.
The database state carries both tables (as lists in insertion order) and
the two `AUTO_INCREMENT` counters. -/

structure User where
  id : Nat
  email : Option String
  password_hash : Option BDigest
  telegram_id : Option Int
  first_name : Option String
  last_name : Option String
  username : Option String
  auth_date : Option Int
  hash : Option String
  deriving DecidableEq, Repr

structure Item where
  id : Nat
  text : String
  user_id : Nat
  deriving DecidableEq, Repr

structure DB where
  users : List User
  items : List Item
  nextUserId : Nat
  nextItemId : Nat
  deriving DecidableEq, Repr

/-- The `AUTO_INCREMENT` invariant for `items.id`: every existing row id is
below the counter (MySQL never re-issues a previously issued id). -/
def itemIdsFresh (db : DB) : Prop :=
  ∀ it ∈ db.items, it.id < db.nextItemId

/-- `items.id` is the primary key: ids are pairwise distinct. -/
def itemIdsNodup (db : DB) : Prop :=
  (db.items.map Item.id).Nodup

/-- `users.id` is the primary key: ids are pairwise distinct. -/
def userIdsNodup (db : DB) : Prop :=
  (db.users.map User.id).Nodup

/-- Modelled from the spec: `jwt.sign({ id: user.id, email: user.email },
JWT_SECRET, { expiresIn: '1h' })` — the `jsonwebtoken` library code is
missing from this repository; one hour is 3600 seconds past `now`. -/
def generateToken (secret now : Nat) (user : User) : Token :=
  .signed user.id user.email (now + 3600) secret

/-! ## Item queries (`getItems`, `addItem`, `deleteItem`, `updateItem`)

`getItems` runs `SELECT id, text FROM items WHERE user_id = ? ORDER BY id`;
the `ORDER BY id` is realised by an insertion sort on ids on the filtered
rows, and the projection to `(id, text)` yields `Row` values. -/

structure Row where
  id : Nat
  text : String
  deriving DecidableEq, Repr

def insertById (it : Item) : List Item → List Item
  | [] => [it]
  | x :: xs => if it.id ≤ x.id then it :: x :: xs else x :: insertById it xs

def sortById : List Item → List Item
  | [] => []
  | x :: xs => insertById x (sortById xs)

def getItems (db : DB) (userId : Nat) : List Row :=
  (sortById (db.items.filter (fun it => it.user_id == userId))).map
    (fun it => ⟨it.id, it.text⟩)

/-- `INSERT INTO items (text, user_id) VALUES (?, ?)`, returning
`result.insertId`.  The `items.user_id` foreign key makes the insert fail
(a thrown error in JS) when no user with that id exists. -/
def addItem (db : DB) (text : String) (userId : Nat) :
    Except Unit (DB × Nat) :=
  if db.users.any (fun u => u.id == userId) then
    .ok ({ db with
            items := db.items ++ [⟨db.nextItemId, text, userId⟩],
            nextItemId := db.nextItemId + 1 },
         db.nextItemId)
  else .error ()

/-- `DELETE FROM items WHERE id = ? AND user_id = ?`. -/
def deleteItem (db : DB) (id : Nat) (userId : Nat) : DB :=
  { db with
    items := db.items.filter (fun it => !(it.id == id && it.user_id == userId)) }

/-- `UPDATE items SET text = ? WHERE id = ? AND user_id = ?`. -/
def updateItem (db : DB) (id : Nat) (text : String) (userId : Nat) : DB :=
  { db with
    items := db.items.map (fun it =>
      if it.id == id && it.user_id == userId then { it with text := text } else it) }

/-- The number of rows the `UPDATE`/`DELETE` of `updateItem`/`deleteItem`
affects (the handlers in `index.js` never look at it). -/
def affectedRows (db : DB) (id : Nat) (userId : Nat) : Nat :=
  (db.items.filter (fun it => it.id == id && it.user_id == userId)).length

/-! ## User queries -/

/-- `SELECT * FROM users WHERE email = ?`, then `rows[0]`. -/
def getUserByEmail (db : DB) (email : String) : Option User :=
  (db.users.filter (fun u => u.email == some email)).head?

/-- `SELECT * FROM users WHERE id = ?`, then `rows[0]`. -/
def getUserById (db : DB) (id : Nat) : Option User :=
  (db.users.filter (fun u => u.id == id)).head?

/-- `SELECT * FROM users WHERE telegram_id = ?`, then `rows[0]`. -/
def getUserByTelegramId (db : DB) (telegramId : Int) : Option User :=
  (db.users.filter (fun u => u.telegram_id == some telegramId)).head?

/-- The Telegram login-widget identity object received by
`/telegram-callback` and passed to `linkTelegramAccount`. -/
structure TgUser where
  id : Int
  first_name : String
  last_name : Option String
  username : Option String
  auth_date : Int
  hash : String
  deriving DecidableEq, Repr

/-- The field update `linkTelegramAccount` applies to the matched user row
(`telegramUser.last_name || ''` / `telegramUser.username || ''` map a
missing field to the empty string). -/
def linkApply (tg : TgUser) (u : User) : User :=
  { u with
    telegram_id := some tg.id,
    first_name := some tg.first_name,
    last_name := some (tg.last_name.getD ""),
    username := some (tg.username.getD ""),
    auth_date := some tg.auth_date,
    hash := some tg.hash }

/-- `UPDATE users SET telegram_id = ?, first_name = ?, last_name = ?,
username = ?, auth_date = ?, hash = ? WHERE id = ?`. -/
def linkTelegramAccount (db : DB) (userId : Nat) (tg : TgUser) : DB :=
  { db with
    users := db.users.map (fun u => if u.id == userId then linkApply tg u else u) }

/-! ## HTML row rendering (`generateListRows`) -/

/-- `item.text.replace(/'/g, "\\'")` — every single quote becomes a
backslash-escaped quote. -/
def escapeQuotes (s : String) : String :=
  String.mk (s.toList.foldr
    (fun c acc => if c = '\'' then '\\' :: '\'' :: acc else c :: acc) [])

/-- One `<tr>` of the template literal in `generateListRows`
(`index` is the 0-based map index; the cell shows `index + 1`). -/
def rowHtml (index : Nat) (r : Row) : String :=
  "\n        <tr id=\"row-" ++ toString r.id ++ "\">\n            <td>" ++
    toString (index + 1) ++ "</td>\n            <td>" ++ r.text ++
    "</td>\n            <td>\n                <button class=\"action-btn edit-btn\" onclick=\"enableEdit(" ++
    toString r.id ++ ", '" ++ escapeQuotes r.text ++
    "')\">Изменить</button>\n                <button class=\"action-btn delete-btn\" onclick=\"deleteItem(" ++
    toString r.id ++ ")\">Удалить</button>\n            </td>\n        </tr>\n    "

def generateListRows (db : DB) (userId : Nat) : String :=
  String.join ((getItems db userId).mapIdx (fun i r => rowHtml i r))

/-! ## HTTP layer

Each route handler of `handleRequest` becomes a function from the parsed
request pieces to `(new database state, response)`.  `JVal` models the
JSON value bound to `text` by destructuring the request body (`!text` in JS
is truthiness of that value; a missing field is `Option.none`). -/

inductive JVal where
  | jstr (s : String)
  | jnum (n : Int)
  | jbool (b : Bool)
  | jnull
  deriving DecidableEq, Repr

/-- JS truthiness of the destructured `text` field (`undefined`, `null`,
`""`, `0` and `false` are falsy). -/
def truthy : Option JVal → Bool
  | none => false
  | some .jnull => false
  | some (.jstr s) => !(s == "")
  | some (.jnum n) => !(n == 0)
  | some (.jbool b) => b

/-- The string MySQL stores when a truthy `text` value is inserted into the
`VARCHAR` column (`mysql2` sends numbers as numeric literals, which MySQL
coerces to their decimal text). -/
def jvalToSql : JVal → String
  | .jstr s => s
  | .jnum n => toString n
  | .jbool b => if b then "1" else "0"
  | .jnull => ""

inductive Body where
  /-- `{success:false, error:'Неверный email или пароль'}` -/
  | loginFail
  /-- `{success:false, error:'Invalid data'}` -/
  | invalidData
  /-- `{success:true, token, user:{id, email, firstName, lastName, telegramLinked}}` -/
  | loginOk (token : Token) (id : Nat) (email : Option String)
      (firstName : Option String) (lastName : Option String) (telegramLinked : Bool)
  /-- `{authenticated:false}` -/
  | authFail
  /-- `{authenticated:true, user:{...}}` -/
  | authOk (id : Nat) (email : Option String)
      (firstName : Option String) (lastName : Option String) (telegramLinked : Bool)
  /-- `{error:'Unauthorized'}` -/
  | unauthorized
  /-- `{rows}` -/
  | rows (html : String)
  /-- `{success:true, rows}` -/
  | successRows (html : String)
  /-- `{success:false, error: msg}` -/
  | errorMsg (msg : String)
  /-- `{success:true, telegramLinked:true}` -/
  | linkedOk
  deriving DecidableEq, Repr

structure HResp where
  status : Nat
  body : Body
  deriving DecidableEq, Repr

/-- `POST /login` with parsed body `{email, password}`.  A user row whose
`password_hash` is `NULL` makes `bcrypt.compare` throw, which the catch
block turns into a 400. -/
def handleLogin (secret now : Nat) (db : DB) (email password : String) : HResp :=
  match getUserByEmail db email with
  | none => ⟨401, .loginFail⟩
  | some user =>
    match user.password_hash with
    | none => ⟨400, .invalidData⟩
    | some d =>
      if comparePasswords password d then
        ⟨200, .loginOk (generateToken secret now user) user.id user.email
          user.first_name user.last_name user.telegram_id.isSome⟩
      else ⟨401, .loginFail⟩

/-- `GET /auth/check` with the bearer token extracted from the
`Authorization` header (`none` = header missing or without a token part). -/
def handleAuthCheck (secret now : Nat) (db : DB) (token : Option Token) : HResp :=
  match token with
  | none => ⟨401, .authFail⟩
  | some t =>
    match verifyToken secret now t with
    | .ok id _ =>
      match getUserById db id with
      | none => ⟨401, .authFail⟩
      | some user =>
        ⟨200, .authOk user.id user.email user.first_name user.last_name
          user.telegram_id.isSome⟩
    | _ => ⟨401, .authFail⟩

/-- `GET /list`: after a successful `verifyToken` the handler goes straight
to `generateListRows(decoded.id)` — there is no `getUserById` check. -/
def handleList (secret now : Nat) (db : DB) (token : Option Token) : HResp :=
  match token with
  | none => ⟨401, .unauthorized⟩
  | some t =>
    match verifyToken secret now t with
    | .ok id _ => ⟨200, .rows (generateListRows db id)⟩
    | _ => ⟨401, .unauthorized⟩

/-- `POST /add`: missing token → 401; inside the body callback, a failed
`verifyToken`, a falsy `text`, or a failing insert all land in the catch
block (400 with the error's message). -/
def handleAdd (secret now : Nat) (db : DB) (token : Option Token)
    (text : Option JVal) : DB × HResp :=
  match token with
  | none => (db, ⟨401, .unauthorized⟩)
  | some t =>
    match verifyToken secret now t with
    | .ok id _ =>
      if truthy text then
        match addItem db (jvalToSql (text.getD .jnull)) id with
        | .ok (db', _) => (db', ⟨200, .successRows (generateListRows db' id)⟩)
        | .error _ => (db, ⟨400, .errorMsg "foreign key constraint fails"⟩)
      else (db, ⟨400, .errorMsg "Invalid input"⟩)
    | r => (db, ⟨400, .errorMsg (verifyErrorMessage r)⟩)

/-- `DELETE /delete/:id`: missing token → 401; unparseable id (`NaN`,
modelled as `none`) → 400 `Invalid ID`; a failed `verifyToken` in this
route's try/catch yields a 500. -/
def handleDelete (secret now : Nat) (db : DB) (token : Option Token)
    (id : Option Nat) : DB × HResp :=
  match token with
  | none => (db, ⟨401, .unauthorized⟩)
  | some t =>
    match id with
    | none => (db, ⟨400, .errorMsg "Invalid ID"⟩)
    | some id =>
      match verifyToken secret now t with
      | .ok uid _ =>
        let db' := deleteItem db id uid
        (db', ⟨200, .successRows (generateListRows db' uid)⟩)
      | r => (db, ⟨500, .errorMsg (verifyErrorMessage r)⟩)

/-- `PUT /edit/:id`: missing token → 401; a failed `verifyToken` or a falsy
`text` lands in the catch block (400 with the error's message). -/
def handleEdit (secret now : Nat) (db : DB) (token : Option Token)
    (id : Nat) (text : Option JVal) : DB × HResp :=
  match token with
  | none => (db, ⟨401, .unauthorized⟩)
  | some t =>
    match verifyToken secret now t with
    | .ok uid _ =>
      if truthy text then
        let db' := updateItem db id (jvalToSql (text.getD .jnull)) uid
        (db', ⟨200, .successRows (generateListRows db' uid)⟩)
      else (db, ⟨400, .errorMsg "Invalid input"⟩)
    | r => (db, ⟨400, .errorMsg (verifyErrorMessage r)⟩)

/-- `POST /telegram-callback` with parsed body `{user, token}` (`none` =
unparseable body or a missing field; `!user.id` also rejects a zero chat
id, `0` being falsy). -/
def handleTelegramCallback (secret now : Nat) (db : DB)
    (input : Option (TgUser × Token)) : DB × HResp :=
  match input with
  | none => (db, ⟨400, .invalidData⟩)
  | some (tgUser, token) =>
    if tgUser.id == 0 then (db, ⟨400, .invalidData⟩)
    else
      match verifyToken secret now token with
      | .ok uid _ =>
        match getUserById db uid with
        | none => (db, ⟨400, .invalidData⟩)
        | some dbUser => (linkTelegramAccount db dbUser.id tgUser, ⟨200, .linkedOk⟩)
      | _ => (db, ⟨400, .invalidData⟩)

/-! ## Bot command handlers

Each `bot.onText` callback becomes a function from the database state, the
sender's Telegram id and the parsed command arguments to the new state and
the reply text. -/

def notLinkedReply : String :=
  "Для работы с задачами сначала привяжите свой аккаунт на сайте"

def badNumberReply : String := "Неверный номер задачи"

/-- `/delete (\d+)`: `n` is `parseInt(match[1])`. -/
def botDelete (db : DB) (fromId : Int) (n : Nat) : DB × String :=
  match getUserByTelegramId db fromId with
  | none => (db, notLinkedReply)
  | some user =>
    let items := getItems db user.id
    if h : n < 1 ∨ items.length < n then (db, badNumberReply)
    else
      let itemToDelete := items.get ⟨n - 1, by omega⟩
      (deleteItem db itemToDelete.id user.id,
       "Задача \"" ++ itemToDelete.text ++ "\" успешно удалена!")

/-- `/edit (\d+) (.+)`: `n` is `parseInt(match[1])`, `newText` is `match[2]`. -/
def botEdit (db : DB) (fromId : Int) (n : Nat) (newText : String) : DB × String :=
  match getUserByTelegramId db fromId with
  | none => (db, notLinkedReply)
  | some user =>
    let items := getItems db user.id
    if h : n < 1 ∨ items.length < n then (db, badNumberReply)
    else
      let itemToEdit := items.get ⟨n - 1, by omega⟩
      (updateItem db itemToEdit.id newText user.id,
       "Задача изменена с \"" ++ itemToEdit.text ++ "\" на \"" ++ newText ++ "\"")

/-! ## Lemmas about the embedded store -/

theorem perm_insertById (it : Item) (l : List Item) :
    List.Perm (insertById it l) (it :: l) := by
  induction l with
  | nil => simp [insertById]
  | cons x xs ih =>
    by_cases h : it.id ≤ x.id
    · simp [insertById, h]
    · simp only [insertById, if_neg h]
      exact (ih.cons x).trans (List.Perm.swap it x xs)

theorem perm_sortById (l : List Item) : List.Perm (sortById l) l := by
  induction l with
  | nil => simp [sortById]
  | cons x xs ih =>
    exact (perm_insertById x (sortById xs)).trans (ih.cons x)

theorem mem_sortById {a : Item} {l : List Item} :
    a ∈ sortById l ↔ a ∈ l :=
  (perm_sortById l).mem_iff

theorem length_sortById (l : List Item) :
    (sortById l).length = l.length :=
  (perm_sortById l).length_eq

theorem sorted_insertById {it : Item} {l : List Item}
    (hl : l.Pairwise (fun a b => a.id ≤ b.id)) :
    (insertById it l).Pairwise (fun a b => a.id ≤ b.id) := by
  induction l with
  | nil => simp [insertById]
  | cons x xs ih =>
    rcases List.pairwise_cons.mp hl with ⟨hx, hxs⟩
    by_cases h : it.id ≤ x.id
    · simp only [insertById, if_pos h]
      refine List.pairwise_cons.mpr ⟨?_, hl⟩
      intro b hb
      rcases List.mem_cons.mp hb with rfl | hb
      · exact h
      · exact le_trans h (hx b hb)
    · simp only [insertById, if_neg h]
      refine List.pairwise_cons.mpr ⟨?_, ih hxs⟩
      intro b hb
      rcases List.mem_cons.mp (((perm_insertById it xs).mem_iff).mp hb) with rfl | hb
      · omega
      · exact hx b hb

theorem sorted_sortById (l : List Item) :
    (sortById l).Pairwise (fun a b => a.id ≤ b.id) := by
  induction l with
  | nil => exact List.Pairwise.nil
  | cons x xs ih => exact sorted_insertById ih

/-- Membership in a `getItems` result, in terms of the underlying table. -/
theorem mem_getItems {db : DB} {userId : Nat} {r : Row} :
    r ∈ getItems db userId ↔
      ∃ it ∈ db.items, it.user_id = userId ∧ r = ⟨it.id, it.text⟩ := by
  unfold getItems
  rw [List.mem_map]
  constructor
  · rintro ⟨it, hit, rfl⟩
    rw [mem_sortById, List.mem_filter] at hit
    exact ⟨it, hit.1, by simpa using hit.2, rfl⟩
  · rintro ⟨it, hit, hu, rfl⟩
    exact ⟨it, by rw [mem_sortById, List.mem_filter]; exact ⟨hit, by simpa using hu⟩, rfl⟩

/-! ## Sample database states used by concrete witnesses -/

def alice : User :=
  ⟨1, some "alice@example.com", some (hashPassword 3 "pw1"), none,
   some "Alice", some "A", none, none, none⟩

def bob : User :=
  ⟨2, some "bob@example.com", some (hashPassword 4 "pw2"), some 55,
   some "Bob", some "B", none, none, none⟩

def db0 : DB :=
  ⟨[alice, bob], [⟨1, "milk", 2⟩, ⟨2, "eggs", 1⟩, ⟨3, "tea", 2⟩], 3, 4⟩

def dbEmpty : DB := ⟨[], [], 1, 1⟩

def tokA : Token := .signed 1 (some "alice@example.com") 3600 0

def tokB : Token := .signed 2 (some "bob@example.com") 3600 0

def tgW : TgUser := ⟨77, "Bobby", none, none, 99, "h0"⟩

/-! ## Claim theorems -/

/-- C4: a token issued by `generateToken` immediately passes `verifyToken`
and yields back the same user id (and email), its expiry is exactly one
hour (3600 seconds) after issuance, and a correctly signed token whose
expiry is not in the future fails `verifyToken` with `expired`. -/
theorem issue_verify_roundtrip (secret now : Nat) (user : User)
    (id : Nat) (email : Option String) (e : Nat) (he : e ≤ now) :
    verifyToken secret now (generateToken secret now user) =
      .ok user.id user.email ∧
    generateToken secret now user =
      .signed user.id user.email (now + 3600) secret ∧
    verifyToken secret now (.signed id email e secret) = .expired := by
  refine ⟨?_, rfl, ?_⟩
  · simp [generateToken, verifyToken]
  · simp [verifyToken, he]

theorem issue_verify_roundtrip_witness :
    verifyToken 0 5 (generateToken 0 5 alice) = .ok alice.id alice.email ∧
    generateToken 0 5 alice = .signed alice.id alice.email (5 + 3600) 0 ∧
    verifyToken 0 5 (.signed 1 none 3 0) = .expired :=
  issue_verify_roundtrip 0 5 alice 1 none 3 (by decide)

/-- C5: verifying a plaintext against its own hash succeeds, and hashing
the same plaintext under two distinct fresh salts yields two distinct
digests. -/
theorem hash_verify_salting (password : String) (s1 s2 : Nat) (hs : s1 ≠ s2) :
    comparePasswords password (hashPassword s1 password) = true ∧
    hashPassword s1 password ≠ hashPassword s2 password := by
  constructor
  · simp [comparePasswords, bcryptCompare, hashPassword, bcryptHash]
  · intro h
    exact hs (congrArg BDigest.salt h)

theorem hash_verify_salting_witness :
    comparePasswords "pw" (hashPassword 0 "pw") = true ∧
    hashPassword 0 "pw" ≠ hashPassword 1 "pw" :=
  hash_verify_salting "pw" 0 1 (by decide)

/-- C10: the login response for an unregistered email equals (same status,
same body) the login response for a registered email with a wrong
password — both are the 401 `loginFail` response. -/
theorem login_indistinguishable (secret now : Nat) (db : DB)
    (e1 p1 e2 p2 : String) (u : User) (d : BDigest)
    (h1 : getUserByEmail db e1 = none)
    (h2 : getUserByEmail db e2 = some u)
    (hd : u.password_hash = some d)
    (hw : comparePasswords p2 d = false) :
    handleLogin secret now db e1 p1 = handleLogin secret now db e2 p2 ∧
    handleLogin secret now db e1 p1 = ⟨401, .loginFail⟩ := by
  simp [handleLogin, h1, h2, hd, hw]

theorem login_indistinguishable_witness :
    handleLogin 0 5 db0 "nobody@example.com" "x" =
      handleLogin 0 5 db0 "alice@example.com" "wrong" ∧
    handleLogin 0 5 db0 "nobody@example.com" "x" = ⟨401, .loginFail⟩ :=
  login_indistinguishable 0 5 db0 "nobody@example.com" "x"
    "alice@example.com" "wrong" alice (hashPassword 3 "pw1")
    (by decide) (by decide) rfl (by decide)

/-- C1: ownership scoping.  `getItems` only ever returns rows of items
owned by the queried owner, and a `deleteItem`/`updateItem` issued under an
owner id different from an item's true owner leaves that item unchanged in
the table and still visible in its true owner's subsequent `getItems`. -/
theorem ownership_scoping (db : DB) (uid o iid : Nat) (t : String) (it : Item)
    (hmem : it ∈ db.items) (hown : it.user_id ≠ o) :
    (∀ r ∈ getItems db uid, ∃ j ∈ db.items, j.user_id = uid ∧ r = ⟨j.id, j.text⟩) ∧
    it ∈ (deleteItem db iid o).items ∧
    it ∈ (updateItem db iid t o).items ∧
    (⟨it.id, it.text⟩ : Row) ∈ getItems (deleteItem db iid o) it.user_id ∧
    (⟨it.id, it.text⟩ : Row) ∈ getItems (updateItem db iid t o) it.user_id := by
  have hbeq : (it.user_id == o) = false := by simpa using hown
  have hdel : it ∈ (deleteItem db iid o).items := by
    unfold deleteItem
    exact List.mem_filter.mpr ⟨hmem, by simp [hbeq]⟩
  have hupd : it ∈ (updateItem db iid t o).items := by
    unfold updateItem
    exact List.mem_map.mpr ⟨it, hmem, by simp [hbeq]⟩
  refine ⟨fun r hr => mem_getItems.mp hr, hdel, hupd, ?_, ?_⟩
  · exact mem_getItems.mpr ⟨it, hdel, rfl, rfl⟩
  · exact mem_getItems.mpr ⟨it, hupd, rfl, rfl⟩

theorem ownership_scoping_witness :
    (⟨1, "milk", 2⟩ : Item) ∈ (deleteItem db0 1 1).items ∧
    (⟨1, "milk", 2⟩ : Item) ∈ (updateItem db0 1 "x" 1).items ∧
    (⟨1, "milk"⟩ : Row) ∈ getItems (deleteItem db0 1 1) 2 ∧
    (⟨1, "milk"⟩ : Row) ∈ getItems (updateItem db0 1 "x" 1) 2 :=
  (ownership_scoping db0 2 1 1 "x" ⟨1, "milk", 2⟩ (by decide) (by decide)).2

/-- C3 counterexample: a structurally valid, unexpired token whose embedded
user id (1) matches no existing user is *not* rejected by the `/list`
route: the handler answers 200 with rendered rows, not 401, because it
never looks the user up after `verifyToken`. -/
theorem stale_token_list_cex :
    verifyToken 0 5 (Token.signed 1 none 10 0) = .ok 1 none ∧
    getUserById dbEmpty 1 = none ∧
    handleList 0 5 dbEmpty (some (Token.signed 1 none 10 0)) =
      ⟨200, .rows ""⟩ :=
  ⟨rfl, rfl, rfl⟩

/-- C3 (amended): `/auth/check` does treat a valid token for a nonexistent
user as unauthenticated (401), but `/list` performs no user lookup: it
answers 200 and uses the token's embedded id directly as the ownership key
for `generateListRows`. -/
theorem stale_token_resolution (secret now : Nat) (db : DB) (t : Token)
    (id : Nat) (email : Option String)
    (hv : verifyToken secret now t = .ok id email)
    (hu : getUserById db id = none) :
    handleAuthCheck secret now db (some t) = ⟨401, .authFail⟩ ∧
    handleList secret now db (some t) =
      ⟨200, .rows (generateListRows db id)⟩ := by
  simp [handleAuthCheck, handleList, hv, hu]

theorem stale_token_resolution_witness :
    handleAuthCheck 0 5 dbEmpty (some (Token.signed 1 none 10 0)) =
      ⟨401, .authFail⟩ ∧
    handleList 0 5 dbEmpty (some (Token.signed 1 none 10 0)) =
      ⟨200, .rows (generateListRows dbEmpty 1)⟩ :=
  stale_token_resolution 0 5 dbEmpty (Token.signed 1 none 10 0) 1 none rfl rfl

/-- C2 (documents the bug in the source): `PUT /edit/1` and
`DELETE /delete/1` issued with user 1's token while item 1 is owned by
user 2 affect zero rows and leave the store unchanged, yet both routes
respond 200 `{success:true, ...}`; per the spec such zero-row operations
must be reported as `NotFoundOrForbidden`, not success. -/
theorem zero_rows_reported_as_success :
    affectedRows db0 1 1 = 0 ∧
    handleEdit 0 5 db0 (some tokA) 1 (some (.jstr "hacked")) =
      (db0, ⟨200, .successRows (generateListRows db0 1)⟩) ∧
    handleDelete 0 5 db0 (some tokA) (some 1) =
      (db0, ⟨200, .successRows (generateListRows db0 1)⟩) :=
  ⟨rfl, rfl, rfl⟩

/-- C6 counterexample: `text` bound to the number 5 — not a string — is
truthy, so `POST /add` does *not* fail with the validation error: it
persists a new item (MySQL coerces the value to the text "5") and answers
200, refuting "fails whenever text is not a string, without touching the
store". -/
theorem add_truthy_nonstring_cex :
    (handleAdd 0 5 db0 (some tokA) (some (.jnum 5))).1.items =
      db0.items ++ [⟨4, "5", 1⟩] ∧
    (handleAdd 0 5 db0 (some tokA) (some (.jnum 5))).2.status = 200 :=
  ⟨rfl, rfl⟩

/-- C6 (amended): with a valid token, `POST /add` rejects every JS-falsy
`text` (absent, `null`, the empty string, `0`, `false`) with a 400
`Invalid input` response and an untouched store; for every non-empty
*string* `text`, the owner existing, it appends a new item under the
freshly assigned `AUTO_INCREMENT` id — an id no existing row carries — and
answers 200.  (Truthy non-string values are also accepted, not rejected.) -/
theorem handleAdd_validation (secret now : Nat) (db : DB) (t : Token)
    (uid : Nat) (email : Option String) (text : Option JVal) (s : String)
    (u : User)
    (hv : verifyToken secret now t = .ok uid email)
    (hu : u ∈ db.users) (huid : u.id = uid)
    (hfresh : itemIdsFresh db) :
    (truthy text = false →
      handleAdd secret now db (some t) text =
        (db, ⟨400, .errorMsg "Invalid input"⟩)) ∧
    (text = some (.jstr s) → s ≠ "" →
      (handleAdd secret now db (some t) text).1.items =
        db.items ++ [⟨db.nextItemId, s, uid⟩] ∧
      (handleAdd secret now db (some t) text).2.status = 200 ∧
      ∀ it ∈ db.items, it.id ≠ db.nextItemId) := by
  have hany : (db.users.any (fun v => v.id == uid)) = true :=
    List.any_eq_true.mpr ⟨u, hu, by simp [huid]⟩
  constructor
  · intro hfalse
    simp [handleAdd, hv, hfalse]
  · rintro rfl hs
    have htruthy : truthy (some (.jstr s)) = true := by
      simpa [truthy] using hs
    refine ⟨?_, ?_, fun it hit => Nat.ne_of_lt (hfresh it hit)⟩
    · simp [handleAdd, hv, htruthy, addItem, hany, jvalToSql]
    · simp [handleAdd, hv, htruthy, addItem, hany]

theorem handleAdd_validation_witness :
    handleAdd 0 5 db0 (some tokA) (some (.jstr "")) =
      (db0, ⟨400, .errorMsg "Invalid input"⟩) ∧
    (handleAdd 0 5 db0 (some tokA) (some (.jstr "bread"))).1.items =
      db0.items ++ [⟨4, "bread", 1⟩] ∧
    (handleAdd 0 5 db0 (some tokA) (some (.jstr "bread"))).2.status = 200 :=
  ⟨(handleAdd_validation 0 5 db0 tokA 1 (some "alice@example.com")
      (some (.jstr "")) "" alice rfl (by decide) rfl (by unfold itemIdsFresh; decide)).1 (by decide),
   ((handleAdd_validation 0 5 db0 tokA 1 (some "alice@example.com")
      (some (.jstr "bread")) "bread" alice rfl (by decide) rfl (by unfold itemIdsFresh; decide)).2
      rfl (by decide)).1,
   ((handleAdd_validation 0 5 db0 tokA 1 (some "alice@example.com")
      (some (.jstr "bread")) "bread" alice rfl (by decide) rfl (by unfold itemIdsFresh; decide)).2
      rfl (by decide)).2.1⟩

theorem link_filter_eq (l : List User) (userId : Nat) (chatId : Int)
    (tg : TgUser) (u : User)
    (hnd : (l.map User.id).Nodup) (hu : u ∈ l) (hid : u.id = userId)
    (hnone : ∀ v ∈ l, v.telegram_id ≠ some chatId) (htg : tg.id = chatId) :
    (l.map (fun v => if v.id == userId then linkApply tg v else v)).filter
      (fun v => v.telegram_id == some chatId) = [linkApply tg u] := by
  induction l with
  | nil => cases hu
  | cons x xs ih =>
    have hnd2 := (List.nodup_cons.mp hnd).2
    have hxid := (List.nodup_cons.mp hnd).1
    rcases List.mem_cons.mp hu with rfl | hu2
    · have hx : (u.id == userId) = true := by simp [hid]
      have hlk : ((linkApply tg u).telegram_id == some chatId) = true := by
        simp [linkApply, htg]
      have htail :
          ((xs.map (fun v => if v.id == userId then linkApply tg v else v)).filter
            (fun v => v.telegram_id == some chatId)) = [] := by
        rw [List.filter_eq_nil_iff]
        intro a ha
        rcases List.mem_map.mp ha with ⟨w, hw, rfl⟩
        have hwne : w.id ≠ userId := by
          intro hcontra
          apply hxid
          rw [← hid] at hcontra
          rw [← hcontra]
          exact List.mem_map_of_mem User.id hw
        rw [if_neg (by simp [hwne])]
        simpa using hnone w (List.mem_cons_of_mem _ hw)
      rw [List.map_cons, if_pos hx, List.filter_cons, if_pos hlk, htail]
    · have hxne : x.id ≠ userId := by
        intro hcontra
        apply hxid
        rw [hcontra, ← hid]
        exact List.mem_map_of_mem User.id hu2
      have hxtel : ¬((x.telegram_id == some chatId) = true) := by
        simpa using hnone x (List.mem_cons_self x xs)
      rw [List.map_cons, if_neg (by simp [hxne]), List.filter_cons, if_neg hxtel]
      exact ih hnd2 hu2 (fun v hv => hnone v (List.mem_cons_of_mem _ hv))

/-- C7: for a chat id no user has bound, `getUserByTelegramId` resolves to
nothing (the "not linked" outcome); after `linkTelegramAccount(userId, tg)`
with `tg.id` equal to that chat id, the same lookup returns the user record
with id `userId`, now carrying the chat identity. -/
theorem chat_identity_resolution (db : DB) (userId : Nat) (chatId : Int)
    (tg : TgUser) (u : User)
    (hnd : userIdsNodup db)
    (hu : u ∈ db.users) (hid : u.id = userId)
    (hnone : ∀ v ∈ db.users, v.telegram_id ≠ some chatId)
    (htg : tg.id = chatId) :
    getUserByTelegramId db chatId = none ∧
    getUserByTelegramId (linkTelegramAccount db userId tg) chatId =
      some (linkApply tg u) ∧
    (linkApply tg u).id = userId := by
  refine ⟨?_, ?_, hid⟩
  · unfold getUserByTelegramId
    have : db.users.filter (fun v => v.telegram_id == some chatId) = [] := by
      rw [List.filter_eq_nil_iff]
      intro v hv
      simpa using hnone v hv
    rw [this]
    rfl
  · unfold getUserByTelegramId linkTelegramAccount
    rw [link_filter_eq db.users userId chatId tg u hnd hu hid hnone htg]
    rfl

theorem chat_identity_resolution_witness :
    getUserByTelegramId db0 77 = none ∧
    getUserByTelegramId (linkTelegramAccount db0 1 tgW) 77 =
      some (linkApply tgW alice) ∧
    (linkApply tgW alice).id = 1 :=
  chat_identity_resolution db0 1 77 tgW alice (by unfold userIdsNodup; decide)
    (by decide) rfl (by unfold db0 alice bob; decide) rfl

theorem link_lookup_comm (l : List User) (userId : Nat) (tg : TgUser) :
    ((l.map (fun v => if v.id == userId then linkApply tg v else v)).filter
      (fun v => v.id == userId)).head? =
    ((l.filter (fun v => v.id == userId)).head?).map (linkApply tg) := by
  induction l with
  | nil => rfl
  | cons x xs ih =>
    by_cases h : x.id = userId
    · have hb : (x.id == userId) = true := by simp [h]
      have hb2 : ((linkApply tg x).id == userId) = true := by simp [linkApply, h]
      rw [List.map_cons, if_pos hb, List.filter_cons, if_pos hb2,
        List.filter_cons, if_pos hb]
      rfl
    · have hb : ¬((x.id == userId) = true) := by simp [h]
      rw [List.map_cons, if_neg hb, List.filter_cons, if_neg hb,
        List.filter_cons, if_neg hb]
      exact ih

/-- C8 counterexample: user 2 (`bob`) already has the chat identity 55
bound; a subsequent `/telegram-callback` link with chat id 77 overwrites
the binding to 77, so `linkedChatId` is *not* set at most once. -/
theorem relink_overwrites_cex :
    bob.telegram_id = some 55 ∧
    (handleTelegramCallback 0 5 db0 (some (tgW, tokB))).1.users =
      [alice, linkApply tgW bob] ∧
    (linkApply tgW bob).telegram_id = some 77 :=
  ⟨rfl, rfl, rfl⟩

/-- C8 (amended): a link operation never refuses an already-bound user —
`linkTelegramAccount(userId, tg)` unconditionally overwrites the stored
binding: afterwards the user row keyed by `userId` carries `tg.id` as its
chat identity, whatever chat id it carried before. -/
theorem link_overwrites_binding (db : DB) (userId : Nat) (tg : TgUser)
    (u : User) (oldId : Int)
    (hu : getUserById db userId = some u)
    (hbound : u.telegram_id = some oldId) :
    getUserById (linkTelegramAccount db userId tg) userId =
      some (linkApply tg u) ∧
    (linkApply tg u).telegram_id = some tg.id := by
  refine ⟨?_, rfl⟩
  unfold getUserById linkTelegramAccount
  unfold getUserById at hu
  rw [link_lookup_comm db.users userId tg, hu]
  rfl

theorem link_overwrites_binding_witness :
    getUserById (linkTelegramAccount db0 2 tgW) 2 = some (linkApply tgW bob) ∧
    (linkApply tgW bob).telegram_id = some tgW.id :=
  link_overwrites_binding db0 2 tgW bob 55 (by decide) rfl

theorem length_getItems (db : DB) (uid : Nat) :
    (getItems db uid).length =
      (db.items.filter (fun it => it.user_id == uid)).length := by
  unfold getItems
  rw [List.length_map, length_sortById]

theorem getItems_sorted (db : DB) (uid : Nat) :
    (getItems db uid).Pairwise (fun a b => a.id ≤ b.id) := by
  unfold getItems
  exact (sorted_sortById _).map _ (fun a b h => h)

theorem length_filter_erase_id (l : List Item) (j : Item)
    (hnd : (l.map Item.id).Nodup) (hj : j ∈ l) :
    (l.filter (fun x => !(x.id == j.id))).length = l.length - 1 := by
  induction l with
  | nil => cases hj
  | cons x xs ih =>
    have hhead := (List.nodup_cons.mp hnd).1
    have htail := (List.nodup_cons.mp hnd).2
    rcases List.mem_cons.mp hj with rfl | hj2
    · rw [List.filter_cons, if_neg (by simp)]
      have hxs : ∀ w ∈ xs, (!(w.id == j.id)) = true := by
        intro w hw
        have hwne : w.id ≠ j.id := by
          intro hc
          exact hhead (hc ▸ List.mem_map_of_mem Item.id hw)
        simp [hwne]
      rw [List.filter_eq_self.mpr hxs]
      simp
    · have hxne : x.id ≠ j.id := by
        intro hc
        apply hhead
        rw [hc]
        exact List.mem_map_of_mem Item.id hj2
      rw [List.filter_cons, if_pos (by simp [hxne])]
      have hlen : 0 < xs.length := List.length_pos.mpr (List.ne_nil_of_mem hj2)
      simp only [List.length_cons]
      rw [ih htail hj2]
      omega

/-- C9: for a linked chat user, `/delete n` and `/edit n` read `n` as a
1-based position into the id-ascending `getItems` list: in range, they act
on exactly the row at that position (removing it / rewriting its text, all
other rows surviving); out of range, they reply with the error message and
leave the store untouched. -/
theorem bot_commands_positional (db : DB) (fromId : Int) (n : Nat)
    (t : String) (u : User) (r : Row)
    (hnd : itemIdsNodup db)
    (hu : getUserByTelegramId db fromId = some u)
    (hlow : 1 ≤ n) (hhigh : n ≤ (getItems db u.id).length)
    (hr : (getItems db u.id)[n - 1]? = some r) :
    (getItems db u.id).Pairwise (fun a b => a.id ≤ b.id) ∧
    botDelete db fromId n =
      (deleteItem db r.id u.id,
       "Задача \"" ++ r.text ++ "\" успешно удалена!") ∧
    botEdit db fromId n t =
      (updateItem db r.id t u.id,
       "Задача изменена с \"" ++ r.text ++ "\" на \"" ++ t ++ "\"") ∧
    r ∉ getItems (deleteItem db r.id u.id) u.id ∧
    (∀ r2 ∈ getItems db u.id, r2 ≠ r →
      r2 ∈ getItems (deleteItem db r.id u.id) u.id) ∧
    (getItems (deleteItem db r.id u.id) u.id).length =
      (getItems db u.id).length - 1 ∧
    (⟨r.id, t⟩ : Row) ∈ getItems (updateItem db r.id t u.id) u.id ∧
    (∀ r2 ∈ getItems db u.id, r2.id ≠ r.id →
      r2 ∈ getItems (updateItem db r.id t u.id) u.id) ∧
    (∀ m, m < 1 ∨ (getItems db u.id).length < m →
      botDelete db fromId m = (db, badNumberReply) ∧
      botEdit db fromId m t = (db, badNumberReply)) := by
  have hn : n - 1 < (getItems db u.id).length := by omega
  have hget : (getItems db u.id).get ⟨n - 1, hn⟩ = r := by
    rw [List.getElem?_eq_getElem hn] at hr
    rw [List.get_eq_getElem]
    exact Option.some.inj hr
  have hrmem : r ∈ getItems db u.id := List.getElem?_mem hr
  rcases mem_getItems.mp hrmem with ⟨j, hj, hju, hjr⟩
  have hrid : r.id = j.id := by rw [hjr]
  have hcond : ¬(n < 1 ∨ (getItems db u.id).length < n) := by omega
  have hjbeq : (j.user_id == u.id) = true := by simp [hju]
  refine ⟨getItems_sorted db u.id, ?_, ?_, ?_, ?_, ?_, ?_, ?_, ?_⟩
  · simp only [botDelete, hu]
    rw [dif_neg hcond, hget]
  · simp only [botEdit, hu]
    rw [dif_neg hcond, hget]
  · intro hmem
    rcases mem_getItems.mp hmem with ⟨j2, hj2, hju2, hjr2⟩
    have hid2 : r.id = j2.id := by rw [hjr2]
    have hj2f : j2 ∈ db.items.filter
        (fun it => !(it.id == r.id && it.user_id == u.id)) := hj2
    have hkeep := (List.mem_filter.mp hj2f).2
    have htrue : (j2.id == r.id && j2.user_id == u.id) = true := by
      simp [hid2.symm, hju2]
    rw [htrue] at hkeep
    simp at hkeep
  · rintro r2 hr2 hne
    rcases mem_getItems.mp hr2 with ⟨j2, hj2, hju2, rfl⟩
    apply mem_getItems.mpr
    refine ⟨j2, ?_, hju2, rfl⟩
    simp only [deleteItem]
    apply List.mem_filter.mpr
    refine ⟨hj2, ?_⟩
    have hidne : j2.id ≠ r.id := by
      intro hc
      apply hne
      have hj2j : j2 = j := by
        apply List.inj_on_of_nodup_map hnd hj2 hj
        show j2.id = j.id
        rw [hc, hrid]
      rw [hj2j, hjr]
    simp [hidne]
  · rw [length_getItems, length_getItems]
    simp only [deleteItem]
    rw [List.filter_filter]
    have hcongr :
        db.items.filter
            (fun a => (a.user_id == u.id) && !(a.id == r.id && a.user_id == u.id)) =
          (db.items.filter (fun it => it.user_id == u.id)).filter
            (fun x => !(x.id == j.id)) := by
      rw [List.filter_filter]
      apply List.filter_congr
      intro x _
      rw [hrid]
      cases hb1 : (x.user_id == u.id) <;> cases hb2 : (x.id == j.id) <;>
        simp [hb1, hb2]
    rw [hcongr]
    apply length_filter_erase_id
    · exact ((List.filter_sublist db.items).map Item.id).nodup hnd
    · exact List.mem_filter.mpr ⟨hj, hjbeq⟩
  · apply mem_getItems.mpr
    refine ⟨{ j with text := t }, ?_, hju, by rw [hrid]⟩
    simp only [updateItem]
    apply List.mem_map.mpr
    refine ⟨j, hj, ?_⟩
    have hc : (j.id == r.id && j.user_id == u.id) = true := by
      simp [hrid.symm, hju]
    simp [hc]
  · rintro r2 hr2 hne
    rcases mem_getItems.mp hr2 with ⟨j2, hj2, hju2, rfl⟩
    apply mem_getItems.mpr
    refine ⟨j2, ?_, hju2, rfl⟩
    simp only [updateItem]
    apply List.mem_map.mpr
    refine ⟨j2, hj2, ?_⟩
    have hc : (j2.id == r.id && j2.user_id == u.id) = false := by
      have : j2.id ≠ r.id := hne
      simp [this]
    simp [hc]
  · intro m hm
    constructor
    · simp only [botDelete, hu]
      rw [dif_pos hm]
    · simp only [botEdit, hu]
      rw [dif_pos hm]

theorem bot_commands_positional_witness :
    botDelete db0 55 1 =
      (deleteItem db0 1 2, "Задача \"milk\" успешно удалена!") ∧
    botEdit db0 55 1 "x" =
      (updateItem db0 1 "x" 2,
       "Задача изменена с \"milk\" на \"x\"") :=
  ⟨(bot_commands_positional db0 55 1 "x" bob ⟨1, "milk"⟩
      (by unfold itemIdsNodup; decide) (by decide) (by decide) (by decide)
      (by decide)).2.1,
   (bot_commands_positional db0 55 1 "x" bob ⟨1, "milk"⟩
      (by unfold itemIdsNodup; decide) (by decide) (by decide) (by decide)
      (by decide)).2.2.1⟩

end Todo
